import Mathlib

/-!
Shallow embedding of the tidb-pool repository (Rust):
configuration records from `src/config.rs`, the pool builder
`build_pool_from_config` from `src/pool.rs`, and the `ID`/`Count`
newtype wrappers from `src/id.rs` and `src/count.rs`.

The repository delegates the runtime pool (clamping of `min_connections`,
eager/lazy connection establishment, and the `acquire` deadline loop) to the
sqlx `MySqlPool`; those parts are not under `src/` and are modelled from the
spec where a claim needs them.  Every such definition carries a doc comment
starting with "Modelled from the spec:".
-/

namespace TidbPool

/-- Embeds `PoolOptions` (src/config.rs lines 178-271).  Rust integer fields
(`u32`, `u64`, `usize`) are naturals; durations are the raw second counts the
config stores. -/
structure PoolOptions where
  max_connections : Nat
  min_connections : Nat
  acquire_timeout : Nat
  idle_timeout : Nat
  max_lifetime : Nat
  is_lazy : Bool
  statement_cache_capacity : Nat
deriving Repr, DecidableEq

/-- Embeds `default_max_connections` (src/config.rs line 144). -/
def default_max_connections : Nat := 10

/-- Embeds `default_min_connections` (src/config.rs line 149). -/
def default_min_connections : Nat := 1

/-- Embeds `default_acquire_timeout` (src/config.rs line 154). -/
def default_acquire_timeout : Nat := 30

/-- Embeds `default_idle_timeout` (src/config.rs line 159). -/
def default_idle_timeout : Nat := 300

/-- Embeds `default_max_lifetime` (src/config.rs line 164). -/
def default_max_lifetime : Nat := 1800

/-- Embeds `default_is_lazy` (src/config.rs line 169). -/
def default_is_lazy : Bool := true

/-- Embeds `default_statement_cache_capacity` (src/config.rs line 174). -/
def default_statement_cache_capacity : Nat := 100

/-- Embeds `impl Default for PoolOptions` (src/config.rs lines 273-285); the
source writes the literal `100` for `statement_cache_capacity` there. -/
def PoolOptions.default : PoolOptions :=
  { max_connections := default_max_connections
    min_connections := default_min_connections
    acquire_timeout := default_acquire_timeout
    idle_timeout := default_idle_timeout
    max_lifetime := default_max_lifetime
    is_lazy := default_is_lazy
    statement_cache_capacity := 100 }

/-- Serde data-model view of a serialized `PoolOptions` block: one camelCase
key per field, each possibly absent.  `PoolOptions` has no
`skip_serializing_if` attribute, so serialization emits every field; each
field carries a `#[serde(default = ...)]` attribute used on deserialization
when the key is absent. -/
structure PoolOptionsFields where
  maxConnections : Option Nat
  minConnections : Option Nat
  acquireTimeout : Option Nat
  idleTimeout : Option Nat
  maxLifetime : Option Nat
  isLazy : Option Bool
  statementCacheCapacity : Option Nat
deriving Repr, DecidableEq

/-- Deserialization of a `PoolOptions` block: each absent field falls back to
its `#[serde(default = "...")]` function (src/config.rs lines 188-270). -/
def PoolOptions.deserialize (f : PoolOptionsFields) : PoolOptions :=
  { max_connections := f.maxConnections.getD default_max_connections
    min_connections := f.minConnections.getD default_min_connections
    acquire_timeout := f.acquireTimeout.getD default_acquire_timeout
    idle_timeout := f.idleTimeout.getD default_idle_timeout
    max_lifetime := f.maxLifetime.getD default_max_lifetime
    is_lazy := f.isLazy.getD default_is_lazy
    statement_cache_capacity := f.statementCacheCapacity.getD default_statement_cache_capacity }

/-- Serialization of `PoolOptions`: every field is emitted (no skip
attributes on the struct). -/
def PoolOptions.serialize (o : PoolOptions) : PoolOptionsFields :=
  { maxConnections := some o.max_connections
    minConnections := some o.min_connections
    acquireTimeout := some o.acquire_timeout
    idleTimeout := some o.idle_timeout
    maxLifetime := some o.max_lifetime
    isLazy := some o.is_lazy
    statementCacheCapacity := some o.statement_cache_capacity }

/-- Deserialization of the `pool_options` field of `TiDBConfig`
(src/config.rs lines 92-94): the `#[serde(default)]` attribute substitutes
`PoolOptions::default()` when the whole block is absent. -/
def pool_options_of_block : Option PoolOptionsFields → PoolOptions
  | none => PoolOptions.default
  | some f => PoolOptions.deserialize f

/-- Embeds `TiDBConfig` (src/config.rs lines 73-101).  The `port` field is
`Option<u16>`, modelled as `Option Nat`. -/
structure TiDBConfig where
  host : String
  port : Option Nat
  username : String
  password : String
  database_name : String
  pool_options : PoolOptions
  ssl_ca : Option String
deriving Repr, DecidableEq

/-- Embeds `TiDBConfig::get_host` (src/config.rs lines 118-121):
`format!("{}:{}", self.host, self.port.unwrap_or(4000))`. -/
def TiDBConfig.get_host (c : TiDBConfig) : String :=
  c.host ++ ":" ++ toString (c.port.getD 4000)

/-- The only SSL mode the source selects (`MySqlSslMode::VerifyCa`,
src/pool.rs line 54). -/
inductive MySqlSslMode where
  | verifyCa
deriving Repr, DecidableEq

/-- The sqlx `MySqlConnectOptions` fields that `build_pool_from_config`
sets (src/pool.rs lines 44-57).  `ssl_mode = none` means the code left TLS
unconfigured; the spec reads that as "no TLS".  The two logging settings
(`log_statements`, `log_slow_statements`) are observability-only and are
omitted. -/
structure MySqlConnectOptions where
  host : String
  port : Nat
  database : String
  username : String
  password : String
  statement_cache_capacity : Nat
  ssl_mode : Option MySqlSslMode
  ssl_ca : Option String
deriving Repr, DecidableEq

/-- Starting point of the builder chain, `MySqlConnectOptions::new()`.  Every
field the claims mention is overwritten by the chain in
`build_pool_from_config`; TLS starts unconfigured. -/
def MySqlConnectOptions.new : MySqlConnectOptions :=
  { host := "localhost"
    port := 3306
    database := ""
    username := ""
    password := ""
    statement_cache_capacity := 100
    ssl_mode := none
    ssl_ca := none }

/-- The connection-options value assembled by `build_pool_from_config`
(src/pool.rs lines 40-57): the builder chain
`MySqlConnectOptions::new().host(..).port(port).database(..).username(..)
.password(..).statement_cache_capacity(1000)` — the capacity argument is the
hardcoded literal `1000` — followed by the conditional
`ssl_mode(VerifyCa).ssl_ca(file_name)` block when `config.ssl_ca` is set. -/
def build_conn_options (config : TiDBConfig) : MySqlConnectOptions :=
  let port := config.port.getD 4000
  let base : MySqlConnectOptions :=
    { MySqlConnectOptions.new with
      host := config.host
      port := port
      database := config.database_name
      username := config.username
      password := config.password
      statement_cache_capacity := 1000 }
  match config.ssl_ca with
  | some file_name =>
      { base with ssl_mode := some MySqlSslMode.verifyCa, ssl_ca := some file_name }
  | none => base

/-- The sqlx `MySqlPoolOptions` settings that `build_pool_from_config` sets
(src/pool.rs lines 64-69); durations in seconds. -/
structure MySqlPoolOptions where
  max_connections : Nat
  min_connections : Nat
  idle_timeout : Nat
  max_lifetime : Nat
  acquire_timeout : Nat
deriving Repr, DecidableEq

/-- The pool-options value assembled by `build_pool_from_config`
(src/pool.rs lines 64-69): each setting copied from
`config.pool_options`. -/
def build_pool_options (config : TiDBConfig) : MySqlPoolOptions :=
  { max_connections := config.pool_options.max_connections
    min_connections := config.pool_options.min_connections
    idle_timeout := config.pool_options.idle_timeout
    max_lifetime := config.pool_options.max_lifetime
    acquire_timeout := config.pool_options.acquire_timeout }

/-- Error taxonomy of the spec (section 7): `ConnectFailed` carries the
endpoint diagnostic `host:port`; `AcquireTimeout` is the deadline error. -/
inductive PoolError where
  | connectFailed (diag : String)
  | acquireTimeout
deriving Repr, DecidableEq

/-- The realized pool.  `options` and `conn_options` are the values the
builder passed to sqlx; `live` is the number of connections established at
construction time.  Modelled from the spec: `connect_lazy_with` creates no
connections (`live = 0`); eager `connect_with` establishes connections until
`minConnections` are live, with `min_connections` clamped to
`max_connections` (the clamp is sqlx-internal, documented at src/config.rs
lines 199-208). -/
structure MySqlPool where
  options : MySqlPoolOptions
  conn_options : MySqlConnectOptions
  live : Nat
deriving Repr, DecidableEq

/-- Modelled from the spec: the minimum connection count the realized pool
maintains.  Per src/config.rs lines 199-208 ("This value is clamped
internally to not exceed max_connections") the effective minimum is the
configured minimum clamped to the configured maximum. -/
def MySqlPool.effective_min (p : MySqlPool) : Nat :=
  min p.options.min_connections p.options.max_connections

/-- Embeds `build_pool_from_config` (src/pool.rs lines 33-96).  The
ConnectionFactory is abstracted by `reachable`: whether the endpoint accepts
connections.  The lazy branch wraps `connect_lazy_with` in `Ok` and cannot
fail; the eager branch awaits `connect_with`, which errors exactly when the
endpoint is unreachable, and the `map_err` handler logs
`"Failed to connect to TiDB server at {host}:{port}"` — modelled, following
the spec, as a `ConnectFailed` error carrying that `host:port` string.
Eager success establishes the clamped minimum number of connections
(modelled from the spec). -/
def build_pool_from_config (reachable : Bool) (config : TiDBConfig) :
    Except PoolError MySqlPool :=
  let port := config.port.getD 4000
  let conn_options := build_conn_options config
  let pool_options := build_pool_options config
  if config.pool_options.is_lazy then
    Except.ok { options := pool_options, conn_options := conn_options, live := 0 }
  else if reachable then
    Except.ok
      { options := pool_options
        conn_options := conn_options
        live := min pool_options.min_connections pool_options.max_connections }
  else
    Except.error (PoolError.connectFailed (config.host ++ ":" ++ toString port))

/-- Modelled from the spec (section 4.2): the acquire loop, one tick per
deadline unit.  `avail t` says whether at tick `t` a connection can be
obtained (an idle connection passes the liveness check, capacity remains and
the factory succeeds, or another caller releases).  When the deadline
elapses first, the loop returns `AcquireTimeout`. -/
def acquireLoop (avail : Nat → Bool) : Nat → Nat → Except PoolError Nat
  | 0, _ => Except.error PoolError.acquireTimeout
  | d + 1, t => if avail t then Except.ok t else acquireLoop avail d (t + 1)

/-- Modelled from the spec (section 4.2): `acquire` with the default
deadline, the pool's configured `acquire_timeout`. -/
def MySqlPool.acquire (p : MySqlPool) (avail : Nat → Bool) : Except PoolError Nat :=
  acquireLoop avail p.options.acquire_timeout 0

/-- Embeds `ID` (src/id.rs): a transparent wrapper around a `u64`. -/
structure ID where
  val : Nat
deriving Repr, DecidableEq

/-- Embeds `impl Deref for ID` (src/id.rs lines 8-11): yields the wrapped
value. -/
def ID.deref (x : ID) : Nat := x.val

/-- Embeds `Count` (src/count.rs): a transparent wrapper around an `i64`. -/
structure Count where
  val : Int
deriving Repr, DecidableEq

/-- Embeds `impl Deref for Count` (src/count.rs lines 8-11): yields the
wrapped value. -/
def Count.deref (c : Count) : Int := c.val

/-- Concrete configuration with all pool options at their defaults. -/
def cfgDefault : TiDBConfig :=
  { host := "127.0.0.1"
    port := none
    username := "admin"
    password := "secret"
    database_name := "mydb"
    pool_options := PoolOptions.default
    ssl_ca := none }

/-- Concrete configuration with an inverted `min`/`max` pair (min 5 > max 2). -/
def cfgInv : TiDBConfig :=
  { host := "127.0.0.1"
    port := some 4000
    username := "admin"
    password := "secret"
    database_name := "mydb"
    pool_options :=
      { max_connections := 2
        min_connections := 5
        acquire_timeout := 30
        idle_timeout := 300
        max_lifetime := 1800
        is_lazy := true
        statement_cache_capacity := 100 }
    ssl_ca := none }

/-- Concrete eager (`isLazy = false`) configuration. -/
def cfgEager : TiDBConfig :=
  { host := "db"
    port := none
    username := "u"
    password := "p"
    database_name := "d"
    pool_options := { PoolOptions.default with is_lazy := false }
    ssl_ca := none }

/-- Concrete lazy (`isLazy = true`) configuration. -/
def cfgLazy : TiDBConfig :=
  { host := "db"
    port := some 4001
    username := "u"
    password := "p"
    database_name := "d"
    pool_options := PoolOptions.default
    ssl_ca := none }

/-- Concrete configuration with an SSL CA path set. -/
def cfgSsl : TiDBConfig :=
  { host := "db"
    port := some 4000
    username := "u"
    password := "p"
    database_name := "d"
    pool_options := PoolOptions.default
    ssl_ca := some "ca.pem" }

/-- Concrete eager configuration with an explicit port, for the `get_host`
diagnostic. -/
def cfgEagerPort : TiDBConfig :=
  { host := "tidb.example"
    port := some 5000
    username := "u"
    password := "p"
    database_name := "d"
    pool_options := { PoolOptions.default with is_lazy := false }
    ssl_ca := none }

/-- Concrete lazy configuration used to exercise the acquire deadline. -/
def cfgAcq : TiDBConfig :=
  { host := "db"
    port := some 4000
    username := "u"
    password := "p"
    database_name := "d"
    pool_options := PoolOptions.default
    ssl_ca := none }

/-- Inversion helper: every successfully built pool carries exactly the
options and connection options assembled from the configuration, with `live`
zero in lazy mode and the clamped minimum in eager mode. -/
theorem build_ok_inv (r : Bool) (c : TiDBConfig) (p : MySqlPool)
    (h : build_pool_from_config r c = Except.ok p) :
    p = { options := build_pool_options c
          conn_options := build_conn_options c
          live := if c.pool_options.is_lazy then 0
                  else min c.pool_options.min_connections c.pool_options.max_connections } := by
  by_cases hl : c.pool_options.is_lazy
  · simp [build_pool_from_config, hl] at h
    simp [hl, ← h]
  · cases r
    · simp [build_pool_from_config, hl] at h
    · simp [build_pool_from_config, hl] at h
      simp [hl, ← h, build_pool_options]

/-- Timeout helper: when no tick inside the deadline offers a connection,
the acquire loop returns `AcquireTimeout`. -/
theorem acquireLoop_timeout (avail : Nat → Bool) :
    ∀ (d t : Nat), (∀ s, s < d → avail (t + s) = false) →
      acquireLoop avail d t = Except.error PoolError.acquireTimeout := by
  intro d
  induction d with
  | zero => intro t _; rfl
  | succ d ih =>
      intro t h
      have h0 : avail t = false := by simpa using h 0 (Nat.succ_pos d)
      have hrest : ∀ s, s < d → avail (t + 1 + s) = false := by
        intro s hs
        have := h (s + 1) (Nat.succ_lt_succ hs)
        simpa [Nat.add_comm, Nat.add_left_comm, Nat.add_assoc] using this
      simp [acquireLoop, h0]
      exact ih (t + 1) hrest

/-- C1: the claim says the built pool gives each connection a
prepared-statement cache whose capacity equals the configured
`statementCacheCapacity`.  The code hardcodes the capacity to 1000
(src/pool.rs line 49) and never reads the config field: on the default
configuration the configured capacity is 100 but the built connection
options carry 1000. -/
theorem statement_cache_capacity_hardcoded :
    (build_pool_from_config true cfgDefault).map
        (fun p => p.conn_options.statement_cache_capacity) = Except.ok 1000
    ∧ cfgDefault.pool_options.statement_cache_capacity = 100
    ∧ (100 : Nat) ≠ 1000 :=
  ⟨rfl, rfl, by decide⟩

/-- C2: construction succeeds exactly when the mode is lazy or the endpoint
is reachable — never rejecting a configuration for an inverted
`min`/`max` pair — and in every realized pool the maintained minimum
(`min_connections` clamped to `max_connections`) and the connections live at
construction never exceed `max_connections`. -/
theorem min_connections_clamped (r : Bool) (c : TiDBConfig) :
    (build_pool_from_config r c).toOption.isSome = (c.pool_options.is_lazy || r)
    ∧ (∀ p, build_pool_from_config r c = Except.ok p →
        p.effective_min ≤ p.options.max_connections
        ∧ p.live ≤ p.options.max_connections) := by
  constructor
  · by_cases hl : c.pool_options.is_lazy <;> cases r <;>
      simp [build_pool_from_config, hl, Except.toOption]
  · intro p hp
    have hinv := build_ok_inv r c p hp
    subst hinv
    refine ⟨Nat.min_le_right _ _, ?_⟩
    dsimp [build_pool_options]
    split
    · exact Nat.zero_le _
    · exact Nat.min_le_right _ _

/-- C2 witness: the inverted pair (min 5, max 2) builds without error and the
realized minimum does not exceed the maximum. -/
theorem min_connections_clamped_witness :
    ∃ p, build_pool_from_config true cfgInv = Except.ok p ∧
      p.effective_min ≤ p.options.max_connections :=
  ⟨_, rfl, ((min_connections_clamped true cfgInv).2 _ rfl).1⟩

/-- C3: eager construction against an unreachable endpoint returns the
`ConnectFailed` error carrying `host:port`; no pool value (hence no live
connection) is produced. -/
theorem eager_unreachable_connect_failed (c : TiDBConfig)
    (h : c.pool_options.is_lazy = false) :
    build_pool_from_config false c =
      Except.error
        (PoolError.connectFailed (c.host ++ ":" ++ toString (c.port.getD 4000))) := by
  simp [build_pool_from_config, h]

/-- C3 witness: the concrete eager configuration against an unreachable
endpoint yields `ConnectFailed "db:4000"`. -/
theorem eager_unreachable_witness :
    build_pool_from_config false cfgEager =
      Except.error (PoolError.connectFailed "db:4000") :=
  eager_unreachable_connect_failed cfgEager rfl

/-- C4: lazy construction returns `Ok` with a pool holding zero live
connections, for reachable and unreachable endpoints alike — the lazy branch
cannot return an error. -/
theorem lazy_build_always_ok (r : Bool) (c : TiDBConfig)
    (h : c.pool_options.is_lazy = true) :
    build_pool_from_config r c =
      Except.ok
        { options := build_pool_options c
          conn_options := build_conn_options c
          live := 0 } := by
  simp [build_pool_from_config, h]

/-- C4 witness: the concrete lazy configuration succeeds with zero live
connections even against an unreachable endpoint. -/
theorem lazy_build_always_ok_witness :
    build_pool_from_config false cfgLazy =
      Except.ok
        { options := build_pool_options cfgLazy
          conn_options := build_conn_options cfgLazy
          live := 0 } :=
  lazy_build_always_ok false cfgLazy rfl

/-- C5: every built pool has TLS configured in verify-CA mode exactly when
`ssl_ca` is set, and TLS left unconfigured (no TLS) when it is unset. -/
theorem tls_verify_ca_iff_ssl_ca (r : Bool) (c : TiDBConfig) (p : MySqlPool)
    (h : build_pool_from_config r c = Except.ok p) :
    p.conn_options.ssl_mode =
      (if c.ssl_ca.isSome then some MySqlSslMode.verifyCa else none) := by
  have hinv := build_ok_inv r c p h
  subst hinv
  cases hs : c.ssl_ca <;> simp [build_conn_options, MySqlConnectOptions.new, hs]

/-- C5 witness: the configuration with `ssl_ca = some "ca.pem"` builds a
pool whose connection options select verify-CA mode. -/
theorem tls_verify_ca_witness :
    ∃ p, build_pool_from_config true cfgSsl = Except.ok p ∧
      p.conn_options.ssl_mode =
        (if cfgSsl.ssl_ca.isSome then some MySqlSslMode.verifyCa else none) :=
  ⟨_, rfl, tls_verify_ca_iff_ssl_ca true cfgSsl _ rfl⟩

/-- C6: `PoolOptions::default()` is exactly the documented default record;
an absent pool-options block deserializes to it, as does an all-absent
block; and each individually absent field falls back to its documented
default (10, 1, 30 s, 300 s, 1800 s, lazy, 100). -/
theorem pool_options_defaults (f : PoolOptionsFields) :
    PoolOptions.default =
      { max_connections := 10
        min_connections := 1
        acquire_timeout := 30
        idle_timeout := 300
        max_lifetime := 1800
        is_lazy := true
        statement_cache_capacity := 100 }
    ∧ pool_options_of_block none = PoolOptions.default
    ∧ PoolOptions.deserialize ⟨none, none, none, none, none, none, none⟩ = PoolOptions.default
    ∧ (f.maxConnections = none → (PoolOptions.deserialize f).max_connections = 10)
    ∧ (f.minConnections = none → (PoolOptions.deserialize f).min_connections = 1)
    ∧ (f.acquireTimeout = none → (PoolOptions.deserialize f).acquire_timeout = 30)
    ∧ (f.idleTimeout = none → (PoolOptions.deserialize f).idle_timeout = 300)
    ∧ (f.maxLifetime = none → (PoolOptions.deserialize f).max_lifetime = 1800)
    ∧ (f.isLazy = none → (PoolOptions.deserialize f).is_lazy = true)
    ∧ (f.statementCacheCapacity = none →
        (PoolOptions.deserialize f).statement_cache_capacity = 100) := by
  refine ⟨rfl, rfl, rfl, ?_, ?_, ?_, ?_, ?_, ?_, ?_⟩ <;> intro h <;>
    simp [PoolOptions.deserialize, h, default_max_connections,
      default_min_connections, default_acquire_timeout, default_idle_timeout,
      default_max_lifetime, default_is_lazy, default_statement_cache_capacity]

/-- C6 witness: an all-absent block takes the default maximum of 10. -/
theorem pool_options_defaults_witness :
    (PoolOptions.deserialize ⟨none, none, none, none, none, none, none⟩).max_connections = 10 :=
  (pool_options_defaults ⟨none, none, none, none, none, none, none⟩).2.2.2.1 rfl

/-- C7: `get_host` is `host ++ ":" ++ port` with the port defaulting to
4000; the same effective port is the one the builder writes into the
connection options, and it appears in the eager-failure diagnostic. -/
theorem get_host_effective_port (c : TiDBConfig) :
    c.get_host = c.host ++ ":" ++ toString (c.port.getD 4000)
    ∧ (build_conn_options c).port = c.port.getD 4000
    ∧ (c.pool_options.is_lazy = false →
        build_pool_from_config false c =
          Except.error (PoolError.connectFailed c.get_host)) := by
  refine ⟨rfl, ?_, ?_⟩
  · cases hs : c.ssl_ca <;> simp [build_conn_options, hs]
  · intro h
    simp [build_pool_from_config, h, TiDBConfig.get_host]

/-- C7 witness: the eager configuration on port 5000 fails with the
diagnostic equal to its `get_host` string. -/
theorem get_host_effective_port_witness :
    build_pool_from_config false cfgEagerPort =
      Except.error (PoolError.connectFailed cfgEagerPort.get_host) :=
  (get_host_effective_port cfgEagerPort).2.2 rfl

/-- C8: for every built pool, an acquire call whose deadline (defaulting to
the configured `acquire_timeout`) elapses with no connection obtainable at
any tick — a degraded or unreachable database — returns `AcquireTimeout`;
the loop is a total function, so it neither succeeds nor hangs. -/
theorem acquire_deadline_elapse_times_out (avail : Nat → Bool) (r : Bool)
    (c : TiDBConfig) (p : MySqlPool)
    (hp : build_pool_from_config r c = Except.ok p)
    (h : ∀ t, t < p.options.acquire_timeout → avail t = false) :
    p.acquire avail = Except.error PoolError.acquireTimeout := by
  unfold MySqlPool.acquire
  exact acquireLoop_timeout avail p.options.acquire_timeout 0
    (fun s hs => by simpa using h s hs)

/-- C8 witness: the pool built from the concrete lazy configuration, with a
fully unavailable database, times out its acquire call. -/
theorem acquire_deadline_elapse_witness :
    ∃ p, build_pool_from_config true cfgAcq = Except.ok p ∧
      p.acquire (fun _ => false) = Except.error PoolError.acquireTimeout :=
  ⟨_, rfl,
    acquire_deadline_elapse_times_out (fun _ => false) true cfgAcq _ rfl
      (fun _ _ => rfl)⟩

/-- C9: dereferencing `ID(n)` yields `n` for every 64-bit unsigned value,
and dereferencing `Count(m)` yields `m` for every 64-bit signed value:
construction followed by `Deref` is the identity. -/
theorem deref_roundtrip (n : Nat) (m : Int)
    (hn : n < 2 ^ 64) (hm : -(2 ^ 63) ≤ m ∧ m < 2 ^ 63) :
    (ID.mk n).deref = n ∧ (Count.mk m).deref = m :=
  ⟨rfl, rfl⟩

/-- C9 witness: `ID 7` and `Count (-5)` dereference to their payloads. -/
theorem deref_roundtrip_witness :
    (ID.mk 7).deref = 7 ∧ (Count.mk (-5)).deref = -5 :=
  deref_roundtrip 7 (-5) (by norm_num) (by norm_num)

/-- C10: serializing a `PoolOptions` and deserializing the result returns
the original record, all seven fields unchanged. -/
theorem serde_roundtrip (o : PoolOptions) :
    PoolOptions.deserialize (PoolOptions.serialize o) = o := rfl

end TidbPool
